import Mathlib

/-!
# Verification of the joy vector-graphics library

Shallow embedding of src/joy.py: the Shape data model, the transformation
algebra (Translate, Rotate, Scale, TransformationList, Repeat, Cycle) and
the recursive SVG serializer.

Modelling conventions:
* Scalars are rationals.  The textual form of a scalar (`numStr`) models
  the Python str() of an int for integer values; every numeral that is
  actually rendered in the theorems below is an integer.  (Python floats
  print with a trailing ".0"; no theorem in this file renders a
  non-integral scalar, so the distinction never matters here.)
* A Python exception is modelled by `Option`/`Except`: a computation that
  would raise returns `none`/`.error`.  In particular `Repeat`/`Cycle`
  define no `as_str`, so serializing a transform chain that contains one
  raises AttributeError in Python; `Transformation.as_str` returns `none`
  there, and the renderer propagates the failure.
* `Shape.children` is `None` or a list in Python; `None` and the empty
  list behave identically everywhere in joy.py (both are falsy in `_svg`
  and never otherwise inspected), so children are modelled as a bare list
  with `[]` for `None`.
* Canvas width/height are modelled as naturals; joy.py formats the
  viewBox with `width // 2` (floor division) and a literal minus sign.
-/

set_option maxRecDepth 8000

namespace Joy

/-- A rendered attribute value: joy.py stores arbitrary scalars in
`Shape.attrs` and stringifies them in `render_tag`; the values that occur
in the library are numbers and strings.  Python `None` is modelled by
`Option AttrVal` at the use sites. -/
inductive AttrVal where
  | num (q : ℚ)
  | str (s : String)
deriving DecidableEq, Repr

/-- `Point` (joy.py lines 243-261): an x/y pair; `__eq__` is structural
equality, which `DecidableEq` mirrors. -/
structure Point where
  x : ℚ
  y : ℚ
deriving DecidableEq, Repr

/-- The transformation variants of joy.py: `Translate`, `Rotate`, `Scale`,
`TransformationList` (sequential composition, `tlist`), and the
higher-order `Repeat` (`repeatT`) and `Cycle`.  `cycle` stores its angle
already resolved, as `Cycle.__init__` does (`angle if angle is not None
else 360/n`); the fallible constructor is `CycleMk` below. -/
inductive Transformation where
  | translate (x y : ℚ)
  | rotate (angle : ℚ) (anchor : Point)
  | scale (sx sy : ℚ)
  | tlist (transformations : List Transformation)
  | repeatT (n : ℕ) (transformation : Transformation)
  | cycle (n : ℕ) (angle : ℚ) (anchor : Point) (s : Option ℚ)

/-- The decimal digit characters used by Python str() of an int. -/
def digitChar (n : ℕ) : Char :=
  if n = 0 then '0' else if n = 1 then '1' else if n = 2 then '2'
  else if n = 3 then '3' else if n = 4 then '4' else if n = 5 then '5'
  else if n = 6 then '6' else if n = 7 then '7' else if n = 8 then '8' else '9'

/-- Digits of `n`, most significant first, prepended to `acc`.  The fuel
argument only drives termination; `natStr` supplies enough. -/
def natStrAux : ℕ → ℕ → List Char → List Char
  | 0, _, acc => acc
  | fuel+1, n, acc =>
    if n < 10 then digitChar n :: acc
    else natStrAux fuel (n / 10) (digitChar (n % 10) :: acc)

/-- Python str() of a nonnegative int. -/
def natStr (n : ℕ) : String := String.mk (natStrAux (n+1) n [])

/-- Python str() of an int. -/
def intStr (i : ℤ) : String :=
  if i < 0 then ("-") ++ natStr i.natAbs else natStr i.natAbs

/-- Python str() of a scalar.  Integer values print as ints; the second
branch (never rendered by any theorem in this file) stands in for the
float notation Python would use on non-integral values. -/
def numStr (q : ℚ) : String :=
  if q.den = 1 then intStr q.num else intStr q.num ++ ("/") ++ natStr q.den

/-- Python `sep.join(list)`. -/
def joinSep (sep : String) : List String → String
  | [] => ""
  | [a] => a
  | a :: b :: rest => a ++ sep ++ joinSep sep (b :: rest)

/-- One character of `html.escape` (quote=True): the five reserved
characters expand to entities, everything else is kept.  joy.py applies
`html.escape` to every attribute value. -/
def escapeChar (c : Char) : String :=
  if c = '&' then ("&amp;")
  else if c = '<' then ("&lt;")
  else if c = '>' then ("&gt;")
  else if c = '"' then ("&quot;")
  else if c = Char.ofNat 39 then ("&#x27;")
  else String.singleton c

/-- `html.escape` with quote=True.  Python performs five sequential
`str.replace` passes (ampersand first); since no entity text ever
contains a character that a later pass rewrites, that equals this single
character-by-character expansion. -/
def htmlEscape (s : String) : String :=
  String.mk ((s.data.map (fun c => (escapeChar c).data)).flatten)

/-- Attribute-name formatting of joy.py `render_tag`: underscores become
hyphens. -/
def replaceUnderscore (s : String) : String :=
  String.mk (s.data.map (fun c => if c = '_' then '-' else c))

def AttrVal.toText : AttrVal → String
  | .num q => numStr q
  | .str s => s

/-- joy.py `render_tag` (lines 470-494).  Note the Python quirk kept
here: the emptiness test `if attrs:` runs on the raw attribute dict,
before None-valued entries are dropped, so a tag whose attributes are all
None renders with a stray space. -/
def render_tag (tag : String) (attrs : List (String × Option AttrVal)) (close : Bool) : String :=
  let e := if close then (" />") else (">")
  if attrs.isEmpty then ("<") ++ tag ++ e
  else
    let items := attrs.filterMap
      (fun kv => kv.2.map (fun v => (replaceUnderscore kv.1, htmlEscape v.toText)))
    let attrsText := joinSep (" ") (items.map (fun kv => kv.1 ++ ("=\"") ++ kv.2 ++ ("\"")))
    ("<") ++ tag ++ (" ") ++ attrsText ++ e

/-- `Transformation.join` / `TransformationList.join`: the base class
wraps both operands in a new list, `TransformationList` appends instead
(joy.py lines 509-510 and 526-527).  This is what `t1 | t2` does. -/
def Transformation.join (t1 t2 : Transformation) : Transformation :=
  match t1 with
  | .tlist ts => .tlist (ts ++ [t2])
  | _ => .tlist [t1, t2]

mutual
/-- `as_str` of each serializable transformation (joy.py lines 529-530,
554-555, 590-595, 614-615).  `Repeat` and `Cycle` define no `as_str`;
calling it raises AttributeError in Python, modelled by `none`. -/
def Transformation.as_str : Transformation → Option String
  | .translate x y => some (("translate(") ++ numStr x ++ (" ") ++ numStr y ++ (")"))
  | .rotate angle anchor =>
    some (if anchor = Point.mk 0 0 then ("rotate(") ++ numStr angle ++ (")")
          else ("rotate(") ++ numStr angle ++ (" ") ++ numStr anchor.x ++ (" ") ++ numStr anchor.y ++ (")"))
  | .scale sx sy => some (("scale(") ++ numStr sx ++ (" ") ++ numStr sy ++ (")"))
  | .tlist ts => (asStrList ts).map (joinSep (" "))
  | .repeatT _ _ => none
  | .cycle _ _ _ _ => none

/-- Serializes every member of a transformation list, failing if any
member fails (the list comprehension inside `" ".join(...)`). -/
def asStrList : List Transformation → Option (List String)
  | [] => some []
  | t :: ts =>
    match t.as_str, asStrList ts with
    | some s, some ss => some (s :: ss)
    | _, _ => none
end

/-- True for the variants that `Transformation.apply` attaches to the
shape via `apply_transform` (everything except the higher-order `Repeat`
and `Cycle`, which override `apply`). -/
def Transformation.simple : Transformation → Bool
  | .repeatT _ _ => false
  | .cycle _ _ _ _ => false
  | _ => true

/-- `Shape` (joy.py lines 117-153): a tag, children, an ordered attribute
map, and an optional attached transformation. -/
inductive Shape where
  | mk (tag : String) (children : List Shape) (attrs : List (String × Option AttrVal))
       (transform : Option Transformation)

def Shape.tag : Shape → String
  | .mk t _ _ _ => t

def Shape.children : Shape → List Shape
  | .mk _ c _ _ => c

def Shape.attrs : Shape → List (String × Option AttrVal)
  | .mk _ _ a _ => a

def Shape.transform : Shape → Option Transformation
  | .mk _ _ _ tr => tr

set_option linter.unusedVariables false in
/-- `Shape.__init__` (joy.py lines 125-131).  Line 131 assigns
`self.transform = None`: the `transform` parameter is accepted and then
discarded, so a freshly constructed shape never carries a
transformation. -/
def Shape.init (tag : String) (children : List Shape) (transform : Option Transformation)
    (attrs : List (String × Option AttrVal)) : Shape :=
  Shape.mk tag children attrs none

/-- `Shape.apply_transform` (joy.py lines 142-148): join the new
transformation onto any existing one, then return a clone of the shape
(same tag/children/attrs) carrying the combined transformation.  The
receiver is left untouched, which the pure function models exactly. -/
def Shape.apply_transform : Shape → Transformation → Shape
  | .mk tag children attrs tr0, t =>
    .mk tag children attrs (some (match tr0 with
      | none => t
      | some tr => tr.join t))

/-- `Shape.__getattr__` (joy.py lines 136-140): names that do not start
with an underscore and are present in the attribute dict (even with value
None) are returned; everything else raises AttributeError. -/
def lookupAttr (attrs : List (String × Option AttrVal)) (name : String) :
    Option (Option AttrVal) :=
  (attrs.find? (fun kv => kv.1 = name)).map (fun kv => kv.2)

/-- Python `name.startswith("_")` for the one-character prefix: true
exactly when the first character is an underscore. -/
def startsWithUnderscore (name : String) : Bool :=
  match name.data with
  | [] => false
  | c :: _ => c = '_'

def Shape.getattr_model (s : Shape) (name : String) : Except String (Option AttrVal) :=
  if startsWithUnderscore name then .error name
  else match lookupAttr s.attrs name with
    | some v => .ok v
    | none => .error name

/-- Python dict update `d[k] = v`: replaces in place if the key exists,
appends otherwise (insertion order preserved). -/
def updateAssoc (l : List (String × Option AttrVal)) (k : String) (v : Option AttrVal) :
    List (String × Option AttrVal) :=
  if l.any (fun kv => kv.1 = k) then l.map (fun kv => if kv.1 = k then (k, v) else kv)
  else l ++ [(k, v)]

/-- `Shape.get_attrs` (joy.py lines 155-159) on the attribute dict and
transform field: copies the attributes and, when a transformation is
attached, stores its serialization under the key transform.  Fails when
the serialization fails. -/
def get_attrs_core (attrs : List (String × Option AttrVal)) :
    Option Transformation → Option (List (String × Option AttrVal))
  | none => some attrs
  | some tr => (tr.as_str).map (fun s => updateAssoc attrs ("transform") (some (.str s)))

def Shape.get_attrs (s : Shape) : Option (List (String × Option AttrVal)) :=
  get_attrs_core s.attrs s.transform

mutual
/-- `Shape._svg` (joy.py lines 161-181): childless shapes render as one
self-closing tag, shapes with a nonempty children list render an open
tag, the children at one deeper indent, and a closing tag. -/
def Shape.svg : Shape → String → Option String
  | .mk tag children attrs transform, indent =>
    match get_attrs_core attrs transform with
    | none => none
    | some a =>
      match children with
      | [] => some (indent ++ render_tag tag a true ++ ("\n"))
      | c :: cs =>
        match svgList (c :: cs) (indent ++ ("  ")) with
        | none => none
        | some inner =>
          some (indent ++ render_tag tag a false ++ ("\n") ++ inner
                ++ indent ++ ("</") ++ tag ++ (">\n"))

/-- The concatenation `"".join(c._svg(indent) for c in children)`. -/
def svgList : List Shape → String → Option String
  | [], _ => some ""
  | c :: cs, indent =>
    match c.svg indent, svgList cs indent with
    | some s, some rest => some (s ++ rest)
    | _, _ => none
end

/-- The root tag emitted by `SVG.render` (joy.py lines 220-228), with the
viewBox built exactly as the f-string does: a literal minus sign followed
by the floor halves, then width and height. -/
def svgHeader (width height : ℕ) : String :=
  render_tag ("svg")
    [(("width"), some (.num (width : ℚ))),
     (("height"), some (.num (height : ℚ))),
     (("viewBox"), some (.str (("-") ++ natStr (width / 2) ++ (" -") ++ natStr (height / 2)
                               ++ (" ") ++ natStr width ++ (" ") ++ natStr height))),
     (("fill"), some (.str ("none"))),
     (("stroke"), some (.str ("black"))),
     (("xmlns"), some (.str ("http://www.w3.org/2000/svg")))] false

/-- `SVG.render` (joy.py lines 220-232): header, each top-level node at
indent two, closing tag. -/
def SVG.render (nodes : List Shape) (width height : ℕ) : Option String :=
  (svgList nodes ("  ")).map
    (fun body => svgHeader width height ++ ("\n") ++ body ++ ("</svg>\n"))

/-- `Shape.as_svg` with the default 300 by 300 canvas. -/
def Shape.as_svg (s : Shape) : Option String := SVG.render [s] 300 300

/-- `Group` (joy.py lines 439-468): an svg g element holding the given
shapes. -/
def Group (shapes : List Shape) : Shape := .mk ("g") shapes [] none

/-- `Circle` (joy.py lines 263-304): a circle leaf shape; extra keyword
attributes are appended after cx, cy, r. -/
def Circle (center : Point) (radius : ℚ) (extra : List (String × Option AttrVal)) : Shape :=
  .mk ("circle") []
    ([(("cx"), some (.num center.x)), (("cy"), some (.num center.y)),
      (("r"), some (.num radius))] ++ extra) none

/-- `Circle()` with its documented defaults: center the origin, radius
100. -/
def circleDefault : Shape := Circle ⟨0, 0⟩ 100 []

/-- The loop body of `Repeat.apply` (joy.py lines 650-655): starting from
`sh`, apply `f` again `k` times, collecting the original and every
intermediate result. -/
def repeatGo (f : Shape → Shape) (sh : Shape) : ℕ → List Shape
  | 0 => [sh]
  | k+1 => sh :: repeatGo f (f sh) k

/-- `Transformation.apply` (joy.py line 506) together with the overrides
`Repeat.apply` (lines 650-655) and `Cycle.apply` (lines 714-718).  The
basic variants and `TransformationList` attach themselves via
`apply_transform`; `Repeat` iterates its inner transformation n-1 times
(`range(self.n - 1)`, empty for n = 0 as well); `Cycle` rotates copy i by
i times the stored angle and optionally compounds a scale factor. -/
def Transformation.apply : Transformation → Shape → Shape
  | .translate x y => fun sh => sh.apply_transform (.translate x y)
  | .rotate angle anchor => fun sh => sh.apply_transform (.rotate angle anchor)
  | .scale sx sy => fun sh => sh.apply_transform (.scale sx sy)
  | .tlist ts => fun sh => sh.apply_transform (.tlist ts)
  | .repeatT n t => fun sh => Group (repeatGo (Transformation.apply t) sh (n - 1))
  | .cycle n angle anchor sc => fun sh =>
    let shapes := (List.range n).map
      (fun (i : ℕ) => sh.apply_transform (.rotate ((i : ℚ) * angle) anchor))
    Group (match sc with
      | none => shapes
      | some sval => shapes.enum.map (fun p => p.2.apply_transform (.scale (sval ^ p.1) (sval ^ p.1))))

/-- `Cycle.__init__` (joy.py lines 708-712).  The angle default `360/n`
is evaluated only when no angle is passed; with n = 0 that division
raises ZeroDivisionError, modelled as `.error`. -/
def CycleMk (n : ℕ) (anchor : Point) (s : Option ℚ) (angle : Option ℚ) :
    Except String Transformation :=
  match angle with
  | some a => .ok (.cycle n a anchor s)
  | none =>
    if n = 0 then .error ("ZeroDivisionError: division by zero")
    else .ok (.cycle n (360 / (n : ℚ)) anchor s)

/-! ## Helper lemmas -/

theorem joinSep_cons_of_ne_nil (sep x : String) (l : List String) (h : l ≠ []) :
    joinSep sep (x :: l) = x ++ sep ++ joinSep sep l := by
  cases l with
  | nil => exact absurd rfl h
  | cons b rest => rfl

theorem joinSep_append_single (l : List String) (b : String) (h : l ≠ []) :
    joinSep (" ") (l ++ [b]) = joinSep (" ") l ++ (" ") ++ b := by
  induction l with
  | nil => exact absurd rfl h
  | cons x l ih =>
    cases l with
    | nil => rfl
    | cons y rest =>
      rw [List.cons_append, joinSep_cons_of_ne_nil _ _ _ (by simp),
        joinSep_cons_of_ne_nil _ _ _ (by simp), ih (by simp)]
      simp [String.append_assoc]

theorem joinSep_append_pair (l : List String) (a b : String) :
    joinSep (" ") (l ++ [a, b]) = joinSep (" ") (l ++ [a ++ (" ") ++ b]) := by
  cases l with
  | nil => rfl
  | cons x rest =>
    have h1 : (x :: rest) ++ [a, b] = ((x :: rest) ++ [a]) ++ [b] := by simp
    rw [h1, joinSep_append_single _ _ (by simp), joinSep_append_single _ _ (by simp),
      joinSep_append_single _ _ (by simp)]
    simp [String.append_assoc]

theorem asStrList_append (l1 l2 : List Transformation) :
    asStrList (l1 ++ l2) =
      (asStrList l1).bind (fun s1 => (asStrList l2).map (fun s2 => s1 ++ s2)) := by
  induction l1 with
  | nil =>
    simp only [List.nil_append, asStrList, Option.some_bind]
    cases asStrList l2 <;> rfl
  | cons t ts ih =>
    cases ht : t.as_str <;> cases hts : asStrList ts <;> cases hl2 : asStrList l2 <;>
      simp_all [asStrList]

theorem asStrList_length (l : List Transformation) (L : List String)
    (h : asStrList l = some L) : L.length = l.length := by
  induction l generalizing L with
  | nil => cases h; rfl
  | cons t ts ih =>
    simp only [asStrList] at h
    cases ht : t.as_str with
    | none => rw [ht] at h; cases h
    | some s =>
      rw [ht] at h
      cases hts : asStrList ts with
      | none => rw [hts] at h; cases h
      | some ss => rw [hts] at h; cases h; simp [ih ss hts]

/-- The serialization of `t1.join t2` is the serializations of the two
operands joined by one space, provided `t1` is not an empty
`TransformationList` (whose empty string gets dropped rather than joined
when the pre-composed list is flattened). -/
theorem as_str_join (t1 t2 : Transformation) (h : t1 ≠ .tlist []) :
    (t1.join t2).as_str =
      (t1.as_str).bind (fun s1 => (t2.as_str).map (fun s2 => s1 ++ (" ") ++ s2)) := by
  cases t1 with
  | tlist ts =>
    cases ts with
    | nil => exact absurd rfl h
    | cons u us =>
      show (Transformation.tlist ((u :: us) ++ [t2])).as_str = _
      simp only [Transformation.as_str, asStrList_append]
      cases hus : asStrList (u :: us) with
      | none => cases ht2 : t2.as_str <;> simp [asStrList, ht2]
      | some L =>
        cases ht2 : t2.as_str with
        | none => simp [asStrList, ht2]
        | some s2 =>
          have hL : L ≠ [] := by
            intro hnil
            have := asStrList_length _ _ hus
            rw [hnil] at this
            simp at this
          simp [asStrList, ht2, joinSep_append_single L s2 hL]
  | translate x y =>
    cases ht2 : t2.as_str <;>
      simp [Transformation.join, Transformation.as_str, asStrList, ht2, joinSep]
  | rotate a p =>
    cases ht2 : t2.as_str <;>
      simp [Transformation.join, Transformation.as_str, asStrList, ht2, joinSep]
  | scale sx sy =>
    cases ht2 : t2.as_str <;>
      simp [Transformation.join, Transformation.as_str, asStrList, ht2, joinSep]
  | repeatT n t =>
    cases ht2 : t2.as_str <;>
      simp [Transformation.join, Transformation.as_str, asStrList, ht2]
  | cycle n a p sc =>
    cases ht2 : t2.as_str <;>
      simp [Transformation.join, Transformation.as_str, asStrList, ht2]

/-- Serializing `(tr0 | t1) | t2` and `tr0 | (t1 | t2)` agree whenever
`t1` is not an empty `TransformationList`. -/
theorem as_str_join_assoc (tr0 t1 t2 : Transformation) (h : t1 ≠ .tlist []) :
    ((tr0.join t1).join t2).as_str = (tr0.join (t1.join t2)).as_str := by
  obtain ⟨p, hp1, hp2⟩ : ∃ p : List Transformation,
      tr0.join t1 = .tlist (p ++ [t1]) ∧ tr0.join (t1.join t2) = .tlist (p ++ [t1.join t2]) := by
    cases tr0 with
    | tlist ts => exact ⟨ts, rfl, rfl⟩
    | translate x y => exact ⟨[.translate x y], rfl, rfl⟩
    | rotate a q => exact ⟨[.rotate a q], rfl, rfl⟩
    | scale sx sy => exact ⟨[.scale sx sy], rfl, rfl⟩
    | repeatT n t => exact ⟨[.repeatT n t], rfl, rfl⟩
    | cycle n a q sc => exact ⟨[.cycle n a q sc], rfl, rfl⟩
  rw [hp1, hp2]
  show (Transformation.tlist ((p ++ [t1]) ++ [t2])).as_str = _
  rw [List.append_assoc]
  simp only [Transformation.as_str, asStrList_append, as_str_join t1 t2 h]
  cases hP : asStrList p with
  | none => simp
  | some L =>
    cases h1 : t1.as_str with
    | none => simp [asStrList, h1, as_str_join t1 t2 h]
    | some s1 =>
      cases h2 : t2.as_str with
      | none => simp [asStrList, h1, h2, as_str_join t1 t2 h]
      | some s2 => simp [asStrList, h1, h2, as_str_join t1 t2 h, joinSep_append_pair]

theorem Transformation.apply_of_simple (t : Transformation) (h : t.simple = true) (s : Shape) :
    t.apply s = s.apply_transform t := by
  cases t <;> first | rfl | simp [Transformation.simple] at h

theorem Transformation.join_simple (t1 t2 : Transformation) : (t1.join t2).simple = true := by
  cases t1 <;> rfl

theorem Transformation.join_ne (tr t : Transformation) : tr.join t ≠ tr := by
  cases tr with
  | tlist ts =>
    intro heq
    simp only [Transformation.join] at heq
    injection heq with h'
    have := congrArg List.length h'
    simp at this
  | translate x y => simp [Transformation.join]
  | rotate a p => simp [Transformation.join]
  | scale sx sy => simp [Transformation.join]
  | repeatT n u => simp [Transformation.join]
  | cycle n a p sc => simp [Transformation.join]

/-- Two copies of a shape that differ only in their attached
transformation render identically whenever the transformations
serialize identically. -/
theorem svg_congr_transform (tag : String) (ch : List Shape)
    (attrs : List (String × Option AttrVal)) (tra trb : Transformation)
    (hab : tra.as_str = trb.as_str) (indent : String) :
    Shape.svg (.mk tag ch attrs (some tra)) indent
      = Shape.svg (.mk tag ch attrs (some trb)) indent := by
  cases ch with
  | nil => simp [Shape.svg, get_attrs_core, hab]
  | cons c cs => simp [Shape.svg, get_attrs_core, hab]

theorem as_svg_congr_transform (tag : String) (ch : List Shape)
    (attrs : List (String × Option AttrVal)) (tra trb : Transformation)
    (hab : tra.as_str = trb.as_str) :
    Shape.as_svg (.mk tag ch attrs (some tra)) = Shape.as_svg (.mk tag ch attrs (some trb)) := by
  simp [Shape.as_svg, SVG.render, svgList,
    svg_congr_transform tag ch attrs tra trb hab ("  ")]

theorem repeatGo_length (f : Shape → Shape) (sh : Shape) (k : ℕ) :
    (repeatGo f sh k).length = k + 1 := by
  induction k generalizing sh with
  | zero => rfl
  | succ k ih => simp [repeatGo, ih]

theorem repeatGo_getElem? (f : Shape → Shape) (sh : Shape) (k i : ℕ) (h : i ≤ k) :
    (repeatGo f sh k)[i]? = some (f^[i] sh) := by
  induction k generalizing sh i with
  | zero =>
    have hi : i = 0 := by omega
    subst hi
    simp [repeatGo]
  | succ k ih =>
    cases i with
    | zero => simp [repeatGo]
    | succ i =>
      simp [repeatGo, ih (f sh) i (by omega), Function.iterate_succ_apply]

theorem escapeChar_digitChar (n : ℕ) :
    escapeChar (digitChar n) = String.singleton (digitChar n) := by
  unfold digitChar
  split_ifs <;> rfl

theorem natStrAux_digit (fuel : ℕ) : ∀ (n : ℕ) (acc : List Char),
    (∀ c ∈ acc, ∃ m, c = digitChar m) →
    ∀ c ∈ natStrAux fuel n acc, ∃ m, c = digitChar m := by
  induction fuel with
  | zero => exact fun n acc hacc c hc => hacc c hc
  | succ fuel ih =>
    intro n acc hacc c hc
    rw [natStrAux] at hc
    split at hc
    · rcases List.mem_cons.mp hc with h | h
      · exact ⟨n, h⟩
      · exact hacc c h
    · refine ih (n / 10) (digitChar (n % 10) :: acc) ?_ c hc
      intro d hd
      rcases List.mem_cons.mp hd with h | h
      · exact ⟨n % 10, h⟩
      · exact hacc d h

theorem htmlEscape_of_forall (l : List Char)
    (h : ∀ c ∈ l, escapeChar c = String.singleton c) :
    htmlEscape (String.mk l) = String.mk l := by
  unfold htmlEscape
  congr 1
  induction l with
  | nil => rfl
  | cons c cs ih =>
    have hc := h c (List.mem_cons_self c cs)
    have ihcs := ih (fun d hd => h d (List.mem_cons_of_mem c hd))
    simp only [List.map_cons, List.flatten_cons, hc]
    rw [show (String.singleton c).data = [c] from rfl]
    simpa using ihcs

theorem htmlEscape_natStr (n : ℕ) : htmlEscape (natStr n) = natStr n := by
  unfold natStr
  refine htmlEscape_of_forall _ (fun c hc => ?_)
  obtain ⟨m, hm⟩ := natStrAux_digit (n+1) n [] (by simp) c hc
  rw [hm]
  exact escapeChar_digitChar m

theorem htmlEscape_append (a b : String) :
    htmlEscape (a ++ b) = htmlEscape a ++ htmlEscape b := by
  cases a
  cases b
  simp [htmlEscape, String.ext_iff, String.data_append]

theorem numStr_natCast (n : ℕ) : numStr ((n : ℚ)) = natStr n := by
  have hden : ((n : ℚ)).den = 1 := Rat.den_natCast n
  have hnum : ((n : ℚ)).num = (n : ℤ) := Rat.num_natCast n
  have hnonneg : ¬ ((n : ℤ) < 0) := by exact_mod_cast Int.not_lt.mpr (Int.natCast_nonneg n)
  simp [numStr, hden, hnum, intStr, hnonneg]

theorem intStr_neg_natCast (m : ℕ) (h : 0 < m) : intStr (-(m : ℤ)) = ("-") ++ natStr m := by
  have h1 : (-(m : ℤ)) < 0 := neg_lt_zero.mpr (by exact_mod_cast h)
  simp [intStr, h1, Int.natAbs_neg]

theorem optionMapCongr {α β : Type} {f g : α → β} (h : ∀ a, f a = g a) :
    ∀ o : Option α, o.map f = o.map g
  | none => rfl
  | some a => by simp [h a]

/-! ## Claim theorems -/

/-- C2: applying a transformation leaves the receiver untouched (the
embedding of `apply_transform` is a pure function of the receiver, as the
Python method only writes to the clone) and returns a new shape value with
the same tag, children and attributes but a different attached
transformation, so the result is never equal to the input shape. -/
theorem c2_immutability (s : Shape) (t : Transformation) :
    (s.apply_transform t).tag = s.tag ∧
    (s.apply_transform t).children = s.children ∧
    (s.apply_transform t).attrs = s.attrs ∧
    (s.apply_transform t).transform ≠ s.transform ∧
    s.apply_transform t ≠ s := by
  cases s with
  | mk tag ch attrs tr0 =>
    cases tr0 with
    | none =>
      refine ⟨rfl, rfl, rfl, by simp [Shape.apply_transform, Shape.transform], ?_⟩
      intro heq
      injection heq
      simp_all
    | some tr =>
      refine ⟨rfl, rfl, rfl, ?_, ?_⟩
      · simpa [Shape.apply_transform, Shape.transform] using Transformation.join_ne tr t
      · intro heq
        injection heq with h1 h2 h3 h4
        exact Transformation.join_ne tr t (by simpa using h4)

/-- C3: `shape | Cycle(n=4)` (default angle 360/4 = 90) produces a
container with exactly 4 children, the k-th being the shape rotated by
k*90 degrees around the origin; the 0-th is rotated by 0*90 = 0 degrees,
i.e. unrotated. -/
theorem c3_cycle_four (s : Shape) :
    CycleMk 4 ⟨0, 0⟩ none none = .ok (.cycle 4 90 ⟨0, 0⟩ none) ∧
    Transformation.apply (.cycle 4 90 ⟨0, 0⟩ none) s =
      Group [s.apply_transform (.rotate (0 * 90) ⟨0, 0⟩),
             s.apply_transform (.rotate (1 * 90) ⟨0, 0⟩),
             s.apply_transform (.rotate (2 * 90) ⟨0, 0⟩),
             s.apply_transform (.rotate (3 * 90) ⟨0, 0⟩)] ∧
    (Transformation.apply (.cycle 4 90 ⟨0, 0⟩ none) s).children.length = 4 ∧
    ((0 : ℚ) * 90 = 0) := by
  refine ⟨by norm_num [CycleMk], ?_, ?_, by norm_num⟩
  · show Group _ = Group _
    norm_num [List.range_succ]
  · show ((List.range 4).map
      (fun (i : ℕ) => s.apply_transform (.rotate ((i : ℚ) * 90) ⟨0, 0⟩))).length = 4
    rw [List.length_map, List.length_range]

/-- C4: `Repeat(n, t)` applies `t` successively n-1 times and collects
the original plus every intermediate result, in generation order, into a
container of n members (for n at least 1); the k-th member is the k-fold
application of `t`.  In particular `Repeat(3, Translate(10, 0))` yields
three members whose attached translations accumulate to x-offsets 0, 10
and 10+10 = 20. -/
theorem c4_repeat (s : Shape) (t : Transformation) (n : ℕ) (hn : 1 ≤ n) :
    (Transformation.apply (.repeatT n t) s).children.length = n ∧
    (∀ k, k < n →
      (Transformation.apply (.repeatT n t) s).children[k]? = some ((Transformation.apply t)^[k] s)) ∧
    (s.transform = none →
      Transformation.apply (.repeatT 3 (.translate 10 0)) s =
        Group [s,
               Shape.mk s.tag s.children s.attrs (some (.translate 10 0)),
               Shape.mk s.tag s.children s.attrs
                 (some (.tlist [.translate 10 0, .translate 10 0]))]) := by
  refine ⟨?_, ?_, ?_⟩
  · show (Group (repeatGo (Transformation.apply t) s (n - 1))).children.length = n
    simp only [Group, Shape.children, repeatGo_length]
    omega
  · intro k hk
    show (Group (repeatGo (Transformation.apply t) s (n - 1))).children[k]? = _
    simp only [Group, Shape.children]
    exact repeatGo_getElem? _ _ _ _ (by omega)
  · intro htr
    cases s with
    | mk tag ch attrs tr0 =>
      simp only [Shape.transform] at htr
      subst htr
      show Group (repeatGo _ _ 2) = _
      simp [repeatGo, Shape.apply_transform, Transformation.apply, Transformation.join,
        Shape.tag, Shape.children, Shape.attrs]

/-- C4 witness: the theorem applied at a default circle with
`Repeat(3, Translate(10, 0))`. -/
theorem c4_repeat_witness :
    (1 ≤ 3) ∧
    ((Transformation.apply (.repeatT 3 (.translate 10 0)) circleDefault).children.length = 3 ∧
     (∀ k, k < 3 →
       (Transformation.apply (.repeatT 3 (.translate 10 0)) circleDefault).children[k]? =
         some ((Transformation.apply (.translate 10 0))^[k] circleDefault)) ∧
     (circleDefault.transform = none →
       Transformation.apply (.repeatT 3 (.translate 10 0)) circleDefault =
         Group [circleDefault,
                Shape.mk circleDefault.tag circleDefault.children circleDefault.attrs
                  (some (.translate 10 0)),
                Shape.mk circleDefault.tag circleDefault.children circleDefault.attrs
                  (some (.tlist [.translate 10 0, .translate 10 0]))])) :=
  ⟨by norm_num, c4_repeat circleDefault (.translate 10 0) 3 (by norm_num)⟩

/-- C6 counterexample: the two n = 0 edge cases do not follow one
container policy: `Repeat(0, t)` applied to a shape yields a one-member
container (the loop `range(-1)` is empty), while `Cycle(n=0)` with the
default angle never yields a container at all, failing at construction
with a ZeroDivisionError from `360/n`. -/
theorem c6_counterexample :
    CycleMk 0 ⟨0, 0⟩ none none = .error ("ZeroDivisionError: division by zero") ∧
    Transformation.apply (.repeatT 0 (.translate 10 0)) circleDefault = Group [circleDefault] ∧
    (Transformation.apply (.repeatT 0 (.translate 10 0)) circleDefault).children.length = 1 :=
  ⟨rfl, rfl, rfl⟩

/-- C6 (amended): `Repeat(0, t)` yields a single-member container holding
the original shape; `Cycle(n=0)` with the default angle raises
ZeroDivisionError at construction (and with an explicit angle yields an
empty container); the two operations therefore do not share one
consistent n = 0 policy. -/
theorem c6_amended (t : Transformation) (s : Shape) (a : ℚ) :
    Transformation.apply (.repeatT 0 t) s = Group [s] ∧
    CycleMk 0 ⟨0, 0⟩ none none = .error ("ZeroDivisionError: division by zero") ∧
    CycleMk 0 ⟨0, 0⟩ none (some a) = .ok (.cycle 0 a ⟨0, 0⟩ none) ∧
    Transformation.apply (.cycle 0 a ⟨0, 0⟩ none) s = Group [] :=
  ⟨rfl, rfl, rfl, rfl⟩

/-- C7: a None-valued attribute contributes nothing to the rendered tag:
with other attributes present the output is identical to the output
without the None-valued entry, and with no other attributes the tag text
consists of the tag name and closing mark only (plus the stray space of
the pre-filter emptiness test).  In neither case does the attribute name
or an empty-string value appear. -/
theorem c7_null_attribute_omitted (tag : String) (attrs : List (String × Option AttrVal))
    (close : Bool) (name : String) :
    render_tag tag (attrs ++ [(name, none)]) close =
      (if attrs.isEmpty
       then ("<") ++ tag ++ (" ") ++ (if close then (" />") else (">"))
       else render_tag tag attrs close) := by
  cases attrs with
  | nil => simp [render_tag, joinSep]
  | cons kv rest =>
    simp [render_tag, List.filterMap_append, List.filterMap_cons, List.filterMap_nil]

/-- C8: `Rotate` serializes to the single-argument form exactly when the
anchor equals the origin point, and otherwise to the three-argument form
with the anchor coordinates; in particular `Rotate(45)` gives
`rotate(45)` and `Rotate(45, anchor=Point(10,10))` gives
`rotate(45 10 10)`. -/
theorem c8_rotate_serialization (a : ℚ) (p : Point) :
    Transformation.as_str (.rotate a p) =
      some (if p = Point.mk 0 0 then ("rotate(") ++ numStr a ++ (")")
            else ("rotate(") ++ numStr a ++ (" ") ++ numStr p.x ++ (" ") ++ numStr p.y ++ (")")) ∧
    Transformation.as_str (.rotate 45 ⟨0, 0⟩) = some ("rotate(45)") ∧
    Transformation.as_str (.rotate 45 ⟨10, 10⟩) = some ("rotate(45 10 10)") :=
  ⟨rfl, by decide, by decide⟩

/-- C9 counterexample: the claim promises that an attribute that is
present with a None value is returned successfully, but joy.py line 137
first requires the name not to start with an underscore: an attribute
named "_hidden" that is present with value None still raises
AttributeError. -/
theorem c9_counterexample :
    lookupAttr (Circle ⟨0, 0⟩ 100 [(("_hidden"), none)]).attrs ("_hidden") = some none ∧
    (Circle ⟨0, 0⟩ 100 [(("_hidden"), none)]).getattr_model ("_hidden") =
      .error ("_hidden") :=
  ⟨by decide, rfl⟩

/-- C9 (amended): for attribute names that do not start with an
underscore, looking up a name that is not a declared attribute raises
AttributeError ("no such attribute"), while looking up a declared
attribute whose value is None succeeds and returns the None value — the
two outcomes are distinct.  (Names starting with an underscore always
raise, even when present.) -/
theorem c9_attribute_lookup (s : Shape) (name : String)
    (hname : startsWithUnderscore name = false) :
    (lookupAttr s.attrs name = none → s.getattr_model name = .error name) ∧
    (lookupAttr s.attrs name = some none → s.getattr_model name = .ok none) := by
  constructor <;> intro h <;> simp [Shape.getattr_model, hname, h]

/-- A circle carrying an explicitly None-valued extra attribute, used to
witness C9. -/
def circleWithNullAttr : Shape := Circle ⟨0, 0⟩ 100 [(("opacity"), none)]

/-- C9 witness: on a concrete shape with a None-valued `opacity`
attribute, looking up `opacity` returns the None value and looking up the
undeclared `blah` errors. -/
theorem c9_attribute_lookup_witness :
    circleWithNullAttr.getattr_model ("opacity") = .ok none ∧
    circleWithNullAttr.getattr_model ("blah") = .error ("blah") :=
  ⟨(c9_attribute_lookup circleWithNullAttr ("opacity") (by decide)).2 (by decide),
   (c9_attribute_lookup circleWithNullAttr ("blah") (by decide)).1 (by decide)⟩

/-- C1 counterexample: the claim quantifies over all transformations and
shapes, and fails in two places.  First, for t1 = Translate(10,0) and
t2 = Repeat(2, Translate(10,0)) the pre-composed application
`s | (t1|t2)` attaches the list [t1, t2] as the shape transform, whose
serialization fails (Repeat has no as_str, an AttributeError in Python),
while the chained application `(s | t1) | t2` renders a two-member
group.  Second, even among serializable transformations, with t1 an
empty TransformationList and a shape already carrying an empty
TransformationList, chaining keeps the empty string of the inner list in
the space-joined transform attribute (" rotate(90)") where pre-composing
drops it ("rotate(90)").  Neither pair is observably identical. -/
theorem c1_counterexample :
    (Shape.as_svg (Transformation.apply
        (Transformation.join (.translate 10 0) (.repeatT 2 (.translate 10 0))) circleDefault) ≠
      Shape.as_svg (Transformation.apply (.repeatT 2 (.translate 10 0))
        (Transformation.apply (.translate 10 0) circleDefault))) ∧
    (Shape.as_svg (Transformation.apply
        (Transformation.join (.tlist []) (.rotate 90 ⟨0, 0⟩))
        (circleDefault.apply_transform (.tlist []))) ≠
      Shape.as_svg (Transformation.apply (.rotate 90 ⟨0, 0⟩)
        (Transformation.apply (.tlist []) (circleDefault.apply_transform (.tlist []))))) := by
  exact ⟨by decide, by decide⟩

/-- C1 (amended): for transformations applied by attachment — Translate,
Rotate, Scale and TransformationList (with the degenerate empty list
excluded as the left operand, since flattening drops its empty string
where chaining keeps it) — applying the pre-composed transformation
renders identically to chained application, for every shape; in
particular this covers the spec instance
`render(s | Translate(10,0) | Rotate(90))`. -/
theorem c1_amended (s : Shape) (t1 t2 : Transformation)
    (h1 : t1.simple = true) (h2 : t2.simple = true) (h3 : t1 ≠ .tlist []) :
    Shape.as_svg (Transformation.apply (t1.join t2) s) =
      Shape.as_svg (Transformation.apply t2 (Transformation.apply t1 s)) := by
  rw [Transformation.apply_of_simple t1 h1, Transformation.apply_of_simple t2 h2,
      Transformation.apply_of_simple (t1.join t2) (Transformation.join_simple t1 t2)]
  cases s with
  | mk tag ch attrs tr0 =>
    cases tr0 with
    | none => rfl
    | some tr =>
      show Shape.as_svg (.mk tag ch attrs (some (tr.join (t1.join t2)))) =
        Shape.as_svg (.mk tag ch attrs (some ((tr.join t1).join t2)))
      exact as_svg_congr_transform tag ch attrs _ _ (as_str_join_assoc tr t1 t2 h3).symm

/-- C1 witness: the amendment applied to the spec instance — a default
circle with Translate(10,0) then Rotate(90). -/
theorem c1_amended_witness :
    Shape.as_svg (Transformation.apply
        (Transformation.join (.translate 10 0) (.rotate 90 ⟨0, 0⟩)) circleDefault) =
      Shape.as_svg (Transformation.apply (.rotate 90 ⟨0, 0⟩)
        (Transformation.apply (.translate 10 0) circleDefault)) :=
  c1_amended circleDefault (.translate 10 0) (.rotate 90 ⟨0, 0⟩) rfl rfl
    (fun hx => Transformation.noConfusion hx)

set_option maxHeartbeats 1000000 in
/-- The full textual form of the root tag, with the numerals named:
width, height, then a viewBox of minus the floor halves followed by
width and height, then the fixed paint attributes and namespace. -/
theorem svgHeader_eq (w h : ℕ) :
    svgHeader w h = ("<svg width=\"") ++ natStr w ++ ("\" height=\"") ++ natStr h
      ++ ("\" viewBox=\"-") ++ natStr (w / 2) ++ (" -") ++ natStr (h / 2) ++ (" ")
      ++ natStr w ++ (" ") ++ natStr h
      ++ ("\" fill=\"none\" stroke=\"black\" xmlns=\"http://www.w3.org/2000/svg\">") := by
  have e1 : htmlEscape (numStr ((w : ℚ))) = natStr w := by
    rw [numStr_natCast, htmlEscape_natStr]
  have e2 : htmlEscape (numStr ((h : ℚ))) = natStr h := by
    rw [numStr_natCast, htmlEscape_natStr]
  have e3 : htmlEscape (("-") ++ natStr (w / 2) ++ (" -") ++ natStr (h / 2) ++ (" ")
        ++ natStr w ++ (" ") ++ natStr h) =
      ("-") ++ natStr (w / 2) ++ (" -") ++ natStr (h / 2) ++ (" ")
        ++ natStr w ++ (" ") ++ natStr h := by
    simp only [htmlEscape_append, htmlEscape_natStr]
    rw [show htmlEscape ("-") = ("-") from rfl, show htmlEscape (" -") = (" -") from rfl,
        show htmlEscape (" ") = (" ") from rfl]
  show ("<") ++ ("svg") ++ (" ")
      ++ joinSep (" ")
        [replaceUnderscore ("width") ++ ("=\"") ++ htmlEscape (numStr ((w : ℚ))) ++ ("\""),
         replaceUnderscore ("height") ++ ("=\"") ++ htmlEscape (numStr ((h : ℚ))) ++ ("\""),
         replaceUnderscore ("viewBox") ++ ("=\"")
           ++ htmlEscape (("-") ++ natStr (w / 2) ++ (" -") ++ natStr (h / 2) ++ (" ")
                ++ natStr w ++ (" ") ++ natStr h) ++ ("\""),
         replaceUnderscore ("fill") ++ ("=\"") ++ htmlEscape ("none") ++ ("\""),
         replaceUnderscore ("stroke") ++ ("=\"") ++ htmlEscape ("black") ++ ("\""),
         replaceUnderscore ("xmlns") ++ ("=\"") ++ htmlEscape ("http://www.w3.org/2000/svg") ++ ("\"")]
      ++ (">") = _
  rw [e1, e2, e3,
      show replaceUnderscore ("width") = ("width") from rfl,
      show replaceUnderscore ("height") = ("height") from rfl,
      show replaceUnderscore ("viewBox") = ("viewBox") from rfl,
      show replaceUnderscore ("fill") = ("fill") from rfl,
      show replaceUnderscore ("stroke") = ("stroke") from rfl,
      show replaceUnderscore ("xmlns") = ("xmlns") from rfl,
      show htmlEscape ("none") = ("none") from rfl,
      show htmlEscape ("black") = ("black") from rfl,
      show htmlEscape ("http://www.w3.org/2000/svg") = ("http://www.w3.org/2000/svg") from rfl]
  simp only [joinSep, String.append_assoc]
  rfl

set_option maxHeartbeats 1000000 in
/-- C5 counterexample: the claim asserts the viewBox is
"-width/2 -height/2 width height" for every width and height,
but joy.py computes the halves with floor division: at width = height =
301 the emitted first viewBox entry denotes -150, while -width/2 =
-150.5. -/
theorem c5_counterexample :
    SVG.render [] 301 301 =
      some ("<svg width=\"301\" height=\"301\" viewBox=\"-150 -150 301 301\" fill=\"none\" stroke=\"black\" xmlns=\"http://www.w3.org/2000/svg\">\n</svg>\n") ∧
    ((-150 : ℚ) ≠ -(301 : ℚ) / 2) :=
  ⟨by decide, by norm_num⟩

set_option maxHeartbeats 1000000 in
/-- C5 (amended): the rendered root element carries
width, height, a viewBox of "-{width//2} -{height//2} {width} {height}"
(floor division), fill="none", stroke="black" and the SVG namespace URI;
for even positive width and height the floor halves equal the exact
halves, so the viewBox is then "{-width/2} {-height/2} {width} {height}"
as claimed. -/
theorem c5_amended (w h : ℕ) (hw2 : w % 2 = 0) (hh2 : h % 2 = 0)
    (hw : 0 < w) (hh : 0 < h) (nodes : List Shape) :
    SVG.render nodes w h = (svgList nodes ("  ")).map (fun body =>
      ("<svg width=\"") ++ natStr w ++ ("\" height=\"") ++ natStr h ++ ("\" viewBox=\"")
        ++ intStr (-((w / 2 : ℕ) : ℤ)) ++ (" ") ++ intStr (-((h / 2 : ℕ) : ℤ)) ++ (" ")
        ++ natStr w ++ (" ") ++ natStr h
        ++ ("\" fill=\"none\" stroke=\"black\" xmlns=\"http://www.w3.org/2000/svg\">")
        ++ ("\n") ++ body ++ ("</svg>\n")) ∧
    ((w / 2 : ℕ) : ℚ) = (w : ℚ) / 2 ∧ ((h / 2 : ℕ) : ℚ) = (h : ℚ) / 2 := by
  have hwpos : 0 < w / 2 := by omega
  have hhpos : 0 < h / 2 := by omega
  refine ⟨?_, ?_, ?_⟩
  · rw [SVG.render]
    refine optionMapCongr (fun body => ?_) _
    rw [svgHeader_eq, intStr_neg_natCast (w / 2) hwpos, intStr_neg_natCast (h / 2) hhpos]
    simp only [String.append_assoc]
    rfl
  · have hd : w / 2 * 2 = w := Nat.div_mul_cancel (Nat.dvd_of_mod_eq_zero hw2)
    rw [eq_div_iff (two_ne_zero)]
    exact_mod_cast hd
  · have hd : h / 2 * 2 = h := Nat.div_mul_cancel (Nat.dvd_of_mod_eq_zero hh2)
    rw [eq_div_iff (two_ne_zero)]
    exact_mod_cast hd

/-- C5 witness: the amendment at the default 300 by 300 canvas with no
nodes. -/
theorem c5_amended_witness :
    ((300 : ℕ) % 2 = 0) ∧
    (SVG.render [] 300 300 = (svgList [] ("  ")).map (fun body =>
      ("<svg width=\"") ++ natStr 300 ++ ("\" height=\"") ++ natStr 300 ++ ("\" viewBox=\"")
        ++ intStr (-((300 / 2 : ℕ) : ℤ)) ++ (" ") ++ intStr (-((300 / 2 : ℕ) : ℤ)) ++ (" ")
        ++ natStr 300 ++ (" ") ++ natStr 300
        ++ ("\" fill=\"none\" stroke=\"black\" xmlns=\"http://www.w3.org/2000/svg\">")
        ++ ("\n") ++ body ++ ("</svg>\n")) ∧
     ((300 / 2 : ℕ) : ℚ) = (300 : ℚ) / 2 ∧ ((300 / 2 : ℕ) : ℚ) = (300 : ℚ) / 2) :=
  ⟨by norm_num, c5_amended 300 300 (by norm_num) (by norm_num) (by norm_num) (by norm_num) []⟩

/-- C10: the base Shape constructor stores None as the transform no
matter what transform argument it receives (joy.py line 131), so a
transformation only becomes attached through `apply_transform`, which
does set it. -/
theorem c10_constructor_ignores_transform (tag : String) (children : List Shape)
    (t : Transformation) (attrs : List (String × Option AttrVal)) (t2 : Transformation) :
    (Shape.init tag children (some t) attrs).transform = none ∧
    ((Shape.init tag children (some t) attrs).apply_transform t2).transform = some t2 :=
  ⟨rfl, rfl⟩

end Joy
